import Mathlib

/-!
Verification of the Review Arcade client code and of the session server
specification.  The definitions below are shallow embeddings of the
TypeScript sources (student Play/Join pages, GameContainer, the game
engines, the shared WebSocket hook, the secure session store and the
shared constants).  The server-side scoring engine is not part of the
sources; where a claim depends on it, the engine is modelled from the
specification text and the definition says so in its doc comment.
-/

namespace ReviewArcade

/-! ## Scoring engine (server side)

The real-time session server is not part of the repository sources; the
scoring engine below is modelled from the specification (section 4.4
"Scoring Engine (pure)" and section 4.5 "Session Actor").  The message
shapes, however, are taken from the source file
packages/shared/src/types/index.ts. -/

/-- Clamp of the specification: clamp(x, lo, hi). -/
def clamp (x lo hi : ℚ) : ℚ := max lo (min x hi)

/-- Modelled from the spec: streak_multiplier =
clamp(1.0 + 0.25 * floor(current_streak / 3), 1.0, 2.0).  Nat division
by 3 is the floor. -/
def multiplierFor (streak : Nat) : ℚ :=
  clamp (1 + (1/4 : ℚ) * ((streak / 3 : Nat) : ℚ)) 1 2

/-- Modelled from the spec: a player's scoring state (section 3 "Player",
scoring state fields).  The server holding this state is not in src/. -/
structure ScoringState where
  total_score : Nat
  current_streak : Nat
  best_streak : Nat
  streak_multiplier : ℚ
  comeback_credits : Nat
  last_death_score : Nat
  comeback_start_score : Nat
  pending_question : Option String
deriving DecidableEq, Repr

/-- Modelled from the spec: the scoring state of a freshly joined player
(all counters zero, multiplier 1.0, nothing pending). -/
def initialScoring : ScoringState :=
  { total_score := 0
    current_streak := 0
    best_streak := 0
    streak_multiplier := 1
    comeback_credits := 0
    last_death_score := 0
    comeback_start_score := 0
    pending_question := none }

/-- Shape of the answer_correct message, from the source interface
WSAnswerCorrect in packages/shared/src/types/index.ts (lines 337-346). -/
structure AnswerCorrectMsg where
  bonus_earned : Nat
  total_score : Nat
  current_streak : Nat
  streak_multiplier : ℚ
  comeback_credits : Nat
  comeback_start_score : Nat
  respawn : Bool
deriving DecidableEq, Repr

/-- Modelled from the spec: death(run_score) of section 4.4.  The
effective score is run_score * streak_multiplier (all other arithmetic
is integer, so the product is floored); last_death_score records it; a
comeback credit, when available, is consumed for a head start of
floor(last_death_score * 0.5); the death marks a pending question. -/
def applyDeath (s : ScoringState) (run_score : Nat) (qid : String) : ScoringState :=
  let effective : Nat := (⌊(run_score : ℚ) * s.streak_multiplier⌋).toNat
  { s with
    last_death_score := effective
    comeback_credits := if 0 < s.comeback_credits then s.comeback_credits - 1 else s.comeback_credits
    comeback_start_score := if 0 < s.comeback_credits then effective / 2 else 0
    pending_question := some qid }

/-- Modelled from the spec: answer_correct(time_ms) of section 4.4.
current_streak += 1; multiplier updated; comeback_credits =
min(5, comeback_credits + 1); bonus_earned = last_death_score;
total_score += bonus_earned; pending question cleared.  The returned
message has the source shape WSAnswerCorrect. -/
def applyCorrect (s : ScoringState) : ScoringState × AnswerCorrectMsg :=
  let streak1 := s.current_streak + 1
  let mult1 := multiplierFor streak1
  let credits1 := min 5 (s.comeback_credits + 1)
  let bonus := s.last_death_score
  let total1 := s.total_score + bonus
  ({ s with
      total_score := total1
      current_streak := streak1
      best_streak := max s.best_streak streak1
      streak_multiplier := mult1
      comeback_credits := credits1
      pending_question := none },
   { bonus_earned := bonus
     total_score := total1
     current_streak := streak1
     streak_multiplier := mult1
     comeback_credits := credits1
     comeback_start_score := s.comeback_start_score
     respawn := true })

/-- Modelled from the spec: answer_wrong of section 4.4.  Streak and
multiplier reset, the run score is forfeited, pending cleared. -/
def applyWrong (s : ScoringState) : ScoringState :=
  { s with
    current_streak := 0
    streak_multiplier := 1
    pending_question := none }

/-- Modelled from the spec: answers are valid for 120 s (section 4.5). -/
def ANSWER_TIMEOUT_MS : Nat := 120000

/-- Modelled from the spec: the reply the session actor sends for an
answer, per sections 4.5 and 7 (answer_correct, answer_wrong with the
correct index, or the expired error). -/
inductive AnswerReply where
  | correct (msg : AnswerCorrectMsg)
  | wrong (correct_index : Nat)
  | expired
deriving DecidableEq, Repr

/-- Modelled from the spec: Answer handling of the session actor
(section 4.5): validate that the question matches the pending one and
that the time is within 120 s; apply correct/wrong; otherwise reply
expired and leave the state unchanged. -/
def sessionAnswer (s : ScoringState) (qid : String)
    (answer_index correct_index : Nat) (time_ms : Nat) :
    ScoringState × AnswerReply :=
  if s.pending_question = some qid ∧ time_ms ≤ ANSWER_TIMEOUT_MS then
    if answer_index = correct_index then
      let r := applyCorrect s
      (r.1, .correct r.2)
    else
      (applyWrong s, .wrong correct_index)
  else
    (s, .expired)

/-- Modelled from the spec: the scoring inputs a player produces
(section 4.5 inbox: Death and Answer). -/
inductive SessionEvent where
  | death (run_score : Nat) (qid : String)
  | answer (qid : String) (answer_index correct_index time_ms : Nat)

/-- Modelled from the spec: one scoring step of the session actor.  A
death while a question is pending is rejected without a state change
(section 4.5 failure semantics). -/
def stepEvent (s : ScoringState) (e : SessionEvent) : ScoringState :=
  match e with
  | .death run qid =>
      if s.pending_question.isSome then s else applyDeath s run qid
  | .answer qid ai ci t => (sessionAnswer s qid ai ci t).1

/-- Modelled from the spec: the scoring state reached after a sequence
of player events, starting from a fresh player. -/
def runTrace (events : List SessionEvent) : ScoringState :=
  events.foldl stepEvent initialScoring

/-! ## Dino Dash engine (packages/games/src/engines/DinoDash.ts)

Only the state and the lifecycle methods the claims touch are embedded;
continuous quantities are rationals.  Rendering is omitted (it writes to
the canvas only). -/

namespace DinoDash

/-- Physics constants of DinoDash.ts (top of the file). -/
def INITIAL_SPEED : ℚ := 5

/-- Obstacle kinds of DinoDash.ts (interface Obstacle). -/
inductive ObstacleType where
  | cactus_small | cactus_large | cactus_group | bird
deriving DecidableEq, Repr

/-- Obstacle record of DinoDash.ts (interface Obstacle). -/
structure Obstacle where
  x : ℚ
  width : ℚ
  height : ℚ
  y : ℚ
  type : ObstacleType
deriving DecidableEq, Repr

/-- Mutable fields of class DinoDashEngine that the lifecycle methods
read or write (canvas, callbacks and render-only fields omitted). -/
structure EngineState where
  dinoY : ℚ
  dinoVelocity : ℚ
  isDucking : Bool
  isJumping : Bool
  speed : ℚ
  obstacles : List Obstacle
  score : Nat
  distance : ℚ
  running : Bool
  paused : Bool
  gameOver : Bool
  frameCount : Nat
  nextObstacleDistance : ℚ
deriving DecidableEq, Repr

/-- DinoDashEngine.reset (DinoDash.ts lines 146-159): zero the run. -/
def reset (s : EngineState) : EngineState :=
  { s with
    gameOver := false
    score := 0
    distance := 0
    speed := INITIAL_SPEED
    dinoY := 0
    dinoVelocity := 0
    isDucking := false
    isJumping := false
    obstacles := []
    frameCount := 0
    nextObstacleDistance := 300 }

/-- DinoDashEngine.resume(comebackStartScore) (DinoDash.ts lines
101-108): full reset, then score and distance start from the comeback
score and the loop runs again. -/
def resume (s : EngineState) (comebackStartScore : Nat) : EngineState :=
  let s1 := reset s
  { s1 with
    score := comebackStartScore
    distance := (comebackStartScore : ℚ)
    running := true
    paused := false }

end DinoDash

/-! ## GameContainer (src/unnamed/part_012) -/

namespace GameContainer

/-- The answerResult prop of GameContainer: either the source
WSAnswerCorrect shape or WSAnswerWrong's correct_index. -/
inductive AnswerResultMsg where
  | correct (m : AnswerCorrectMsg)
  | wrong (correct_index : Nat)
deriving DecidableEq, Repr

/-- The answerResult effect of GameContainer (part_012 lines 165-187):
on answer_correct the question modal closes and the engine is resumed
with the comeback score from the message; on answer_wrong the engine is
untouched and the modal stays open for the feedback animation.  Returns
the new engine state and the new showQuestion flag. -/
def onAnswerResult (game : DinoDash.EngineState) (showQuestion : Bool)
    (res : AnswerResultMsg) : DinoDash.EngineState × Bool :=
  match res with
  | .correct m => (DinoDash.resume game m.comeback_start_score, false)
  | .wrong _ => (game, showQuestion)

end GameContainer

/-! ## JavaScript values

A small model of JavaScript runtime values, used for the WebSocket
frames: enough to express JSON.parse results, object literals, property
access and the typeof checks the hook performs.  Numbers are integers
(every number the embedded code handles is one). -/

inductive JsVal where
  | undefined
  | nul
  | bool (b : Bool)
  | num (n : Int)
  | str (s : String)
  | arr (elems : List JsVal)
  | obj (fields : List (String × JsVal))

/-- Test mirroring the JavaScript expression typeof v === 'object'
(true for objects, arrays and null). -/
def jsTypeofIsObject : JsVal → Bool
  | .nul => true
  | .arr _ => true
  | .obj _ => true
  | _ => false

/-- Test for the JavaScript null literal comparison v === null. -/
def jsIsNull : JsVal → Bool
  | .nul => true
  | _ => false

/-- Property access v[name]: the bound value on objects, undefined
otherwise (the embedded code never reads index properties of arrays). -/
def jsGetProp (v : JsVal) (name : String) : JsVal :=
  match v with
  | .obj fields =>
      match fields.find? (fun p => p.1 == name) with
      | some p => p.2
      | none => .undefined
  | _ => .undefined

/-- Test mirroring typeof v === 'string'. -/
def jsIsStringVal : JsVal → Bool
  | .str _ => true
  | _ => false

/-! ## The answer send path (C1)

Play.tsx lines 175-186: the handleAnswer callback of the Play page
builds the answer object literal and sends it.  Its fourth parameter is
the elapsed time, its third the correct index.
src/unnamed/part_012 lines 189-196: GameContainer.handleAnswer invokes
the onAnswer prop with only three arguments (question id, chosen index,
elapsed time); under JavaScript call semantics the missing fourth
argument of Play.handleAnswer is undefined. -/

namespace Play

/-- The object literal sent by Play.tsx handleAnswer (lines 177-183),
field by field in source order. -/
def handleAnswerMessage (questionId : String)
    (answerIndex correctIndex timeMs : JsVal) : List (String × JsVal) :=
  [("type", .str "answer"),
   ("question_id", .str questionId),
   ("answer_index", answerIndex),
   ("correct_index", correctIndex),
   ("time_ms", timeMs)]

end Play

namespace GameContainer

/-- GameContainer.handleAnswer (part_012 lines 189-196) composed with
the Play page handler it is given as the onAnswer prop: the three
arguments question id, answer index and elapsed milliseconds bind to
the first three parameters of Play.handleAnswer, and its fourth
parameter (timeMs) is the undefined of a missing argument. -/
def answerSend (questionId : String) (answerIndex elapsedMs : Int) :
    List (String × JsVal) :=
  Play.handleAnswerMessage questionId (.num answerIndex) (.num elapsedMs) .undefined

end GameContainer

/-- Field names of the source interface WSClientAnswer
(packages/shared/src/types/index.ts lines 427-432), the declared shape
of the client answer message. -/
def wsClientAnswerFields : List String :=
  ["type", "question_id", "answer_index", "time_ms"]

/-- Field names of the source interface Question
(packages/shared/src/types/index.ts lines 92-97), the question payload
a player receives. -/
def questionFields : List String :=
  ["question_id", "question_text", "options", "difficulty"]

/-- Field names of the source interface WSAnswerWrong
(packages/shared/src/types/index.ts lines 348-352). -/
def wsAnswerWrongFields : List String :=
  ["type", "correct_index", "respawn"]

/-! ## Inbound frame validation of the useWebSocket hook (C5)

src/unnamed/part_001, second revision of the hook (the generic one the
Play page instantiates), ws.onmessage at lines 242-266: parse the
frame; reject unless the value is a non-null object whose type property
is a string; otherwise hand the value to the registered callback. -/

/-- Inbound frame handling of useWebSocket: the argument is the result
of JSON.parse (none when parsing threw).  True exactly when the
callback registered through the options receives the value. -/
def wsDeliver : Option JsVal → Bool
  | none => false
  | some v =>
      if !jsTypeofIsObject v || jsIsNull v || !jsIsStringVal (jsGetProp v "type") then
        false
      else
        true

/-- The server-to-client tags, read off the source union ServerWSMessage
(packages/shared/src/types/index.ts lines 386-402). -/
def serverToClientTags : List String :=
  ["host_state", "player_state", "player_connected", "player_disconnected",
   "session_started", "session_paused", "session_resumed", "session_ended",
   "question", "answer_correct", "answer_wrong", "leaderboard_update",
   "live_event", "player_score_update", "ping", "error"]

/-- Restatement of claim C5's delivery condition in its own words: the
frame parses as a JSON object with a string type field AND that type is
a recognized server-to-client tag.  Written for comparison with
wsDeliver, not from the source. -/
def claimedDeliver (d : Option JsVal) : Bool :=
  match d with
  | some (.obj fields) =>
      match jsGetProp (.obj fields) "type" with
      | .str tag => serverToClientTags.contains tag
      | _ => false
  | _ => false

/-- The amended delivery condition: a parsed, non-null JSON object whose
type property is a string, with no tag whitelist.  Written from the
amended claim's words for comparison with wsDeliver. -/
def amendedDeliver (d : Option JsVal) : Bool :=
  match d with
  | some (.obj fields) => jsIsStringVal (jsGetProp (.obj fields) "type")
  | _ => false

/-! ## JavaScript strings as UTF-16 code units

The Join page validates names and codes with String.prototype methods,
whose length and index semantics are UTF-16 code units (a code point
above U+FFFF occupies two units).  JStr models a JavaScript string as
its list of units. -/

/-- A JavaScript string: its UTF-16 code units. -/
abbrev JStr := List Nat

/-- The JavaScript String.prototype.length: the number of UTF-16 code
units. -/
def jsLength (s : JStr) : Nat := List.length s

/-- The number of Unicode code points of a well-formed UTF-16 string:
every unit starts a code point except the low surrogate of a pair. -/
def codePointCount (s : JStr) : Nat :=
  List.length (List.filter (fun u => !(0xDC00 ≤ u && u ≤ 0xDFFF)) s)

/-- The JavaScript whitespace set of String.prototype.trim (WhiteSpace
and LineTerminator code points). -/
def isJsWhitespace (u : Nat) : Bool :=
  u == 0x9 || u == 0xA || u == 0xB || u == 0xC || u == 0xD || u == 0x20 ||
  u == 0xA0 || u == 0x1680 || (0x2000 ≤ u && u ≤ 0x200A) ||
  u == 0x2028 || u == 0x2029 || u == 0x202F || u == 0x205F ||
  u == 0x3000 || u == 0xFEFF

/-- String.prototype.trim: drop whitespace units from both ends. -/
def jsTrim (s : JStr) : JStr :=
  List.reverse (List.dropWhile isJsWhitespace
    (List.reverse (List.dropWhile isJsWhitespace s)))

/-- String.prototype.toUpperCase restricted to ASCII letters (the only
case mapping the validated characters exercise: every unit the code
regex can accept is ASCII). -/
def jsToUpperCase (s : JStr) : JStr :=
  List.map (fun u => if 0x61 ≤ u ∧ u ≤ 0x7A then u - 32 else u) s

/-- Character class test for the regex set [A-Z0-9]. -/
def isUpperAlnumUnit (u : Nat) : Bool :=
  (0x41 ≤ u && u ≤ 0x5A) || (0x30 ≤ u && u ≤ 0x39)

/-- The test of the session code regex of Play.tsx lines 301 and 448,
written exactly as the anchored pattern reads: between four and six
units, all from [A-Z0-9]. -/
def codeRegexTest (s : JStr) : Bool :=
  decide (4 ≤ jsLength s) && decide (jsLength s ≤ 6) &&
  List.all s isUpperAlnumUnit

/-- The sanitizer of the code input field (Play.tsx lines 376 and 520):
onChange stores the typed value uppercased with every unit outside
[A-Z0-9] removed (the input also caps entry at six units). -/
def sanitizeCodeInput (raw : JStr) : JStr :=
  List.filter isUpperAlnumUnit (jsToUpperCase raw)

namespace Join

/-- Result of a submit of the join form: either a client-side
validation error shown to the student, or the join request that
playerAPI.join receives. -/
inductive SubmitOutcome where
  | validationError (message : String)
  | joinRequest (code : JStr) (name : JStr)
deriving DecidableEq

/-- The code validation error text of Play.tsx line 450. -/
def codeErrorMessage : String :=
  "Please enter a valid session code (4-6 alphanumeric characters)"

/-- The name validation error text of Play.tsx line 457. -/
def nameErrorMessage : String :=
  "Please enter a name (at least 2 characters)"

/-- Join.handleSubmit of Play.tsx lines 442-471 (the revision that
stores the player token; its code and name guards are lines 448-459):
reject an empty or non-matching code, then an empty name or one whose
trimmed length is below two, then call playerAPI.join with the
uppercased code and the trimmed name. -/
def handleSubmit (code name : JStr) : SubmitOutcome :=
  if code = [] ∨ codeRegexTest (jsToUpperCase code) = false then
    .validationError codeErrorMessage
  else if name = [] ∨ jsLength (jsTrim name) < 2 then
    .validationError nameErrorMessage
  else
    .joinRequest (jsToUpperCase code) (jsTrim name)

end Join

/-- Claim C6's character set, in the claim's words: A-Z minus I and O,
digits minus 0 and 1.  Written for comparison with the source
validation, not from the source. -/
def claimedLegibleUnit (u : Nat) : Bool :=
  ((0x41 ≤ u && u ≤ 0x5A) && u != 0x49 && u != 0x4F) ||
  ((0x30 ≤ u && u ≤ 0x39) && u != 0x30 && u != 0x31)

/-- Claim C6's acceptance condition, in the claim's words: after
uppercasing and stripping non-alphanumerics the code has exactly six
units, all from the legible set.  Written for comparison with the
source validation, not from the source. -/
def claimedCodeOk (code : JStr) : Bool :=
  let t := sanitizeCodeInput code
  decide (jsLength t = 6) && List.all t claimedLegibleUnit

/-! ## Shared message types (packages/shared/src/types/index.ts)

The server-to-client and client-to-server unions, embedded as inductive
types; payload records carry the interface fields the pages read. -/

/-- The ten game tags of type GameType (types/index.ts lines 112-122),
camel-cased: block-drop, space-rocks, maze-muncher, brick-breaker,
snake-pit, dino-dash, frog-crossing, alien-invasion, flappy-study,
rhythm-rush. -/
inductive GameType where
  | blockDrop | spaceRocks | mazeMuncher | brickBreaker | snakePit
  | dinoDash | frogCrossing | alienInvasion | flappyStudy | rhythmRush
deriving DecidableEq, Repr

/-- Interface Question (types/index.ts lines 92-97). -/
structure Question where
  question_id : String
  question_text : String
  options : List String
  difficulty : Option String
deriving DecidableEq, Repr

/-- Interface LeaderboardEntry (types/index.ts lines 78-86). -/
structure LeaderboardEntry where
  rank : Nat
  player_id : String
  player_name : String
  total_score : Int
  is_teacher : Option Bool
  comeback_credits : Option Nat
  current_streak : Option Nat
deriving DecidableEq, Repr

/-- Interface Award (types/index.ts lines 220-227). -/
structure Award where
  player_id : String
  player_name : String
  award_key : String
  award_name : String
  award_value : String
  icon : String
deriving DecidableEq, Repr

/-- One entry of the players array of WSHostState (types/index.ts
lines 266-271). -/
structure HostStatePlayer where
  player_id : String
  display_name : String
  is_teacher : Bool
  connected : Bool
deriving DecidableEq, Repr

/-- The server-to-client union ServerWSMessage (types/index.ts lines
386-402), one constructor per tagged interface. -/
inductive ServerMsg where
  | hostState (status : String) (game_type : GameType) (teacher_mode : String)
      (players : List HostStatePlayer) (leaderboard : List LeaderboardEntry)
      (player_count : Nat) (timer_end : Option Int)
  | playerState (player_id display_name : String) (is_teacher : Bool)
      (status : String) (game_type : Option GameType)
      (total_score rank comeback_credits current_streak : Int)
      (streak_multiplier : ℚ) (timer_end : Option Int)
  | playerConnected (player_id display_name : String) (is_teacher : Bool)
      (player_count : Nat)
  | playerDisconnected (player_id : String) (player_count : Nat)
  | sessionStarted (game_type : GameType) (time_limit_seconds : Nat)
  | sessionPaused
  | sessionResumed (remaining_seconds : Nat)
  | sessionEnded (final_leaderboard : List LeaderboardEntry) (awards : List Award)
  | question (question : Question) (death_score effective_score : Int)
      (multiplier : ℚ) (comeback_credits : Nat) (total_score : Int)
  | answerCorrect (m : AnswerCorrectMsg)
  | answerWrong (correct_index : Nat)
  | leaderboardUpdate (leaderboard top_5 : Option (List LeaderboardEntry))
      (your_rank your_score : Option Int) (total_players : Option Nat)
  | liveEvent (player_id player_name : String)
  | playerScoreUpdate (player_id : String) (live_score : Int)
  | ping (t : Int)
  | error (message : String)

/-- The client-to-server union ClientWSMessage (types/index.ts lines
464-475).  Payloads the claims never inspect are elided. -/
inductive ClientMsg where
  | initHost (token : String)
  | initPlayer (player_id player_token : String)
  | death (score : Int)
  | answer (question_id : String) (answer_index : Nat) (time_ms : Int)
  | scoreUpdate (score : Int)
  | specialEvent
  | startSession
  | pauseSession
  | resumeSession
  | endSession
  | pong
deriving DecidableEq, Repr

namespace Play

/-- The React state of the Play page (Play.tsx lines 35-52), plus the
navigation to the results page as an explicit effect field. -/
structure State where
  gameType : Option GameType
  isActive : Bool
  totalScore : Int
  rank : Int
  currentStreak : Int
  streakMultiplier : ℚ
  comebackCredits : Int
  question : Option Question
  answerResult : Option GameContainer.AnswerResultMsg
  leaderboard : List LeaderboardEntry
  error : Option String
  initialized : Bool
  navigatedToResults : Option (List LeaderboardEntry × List Award)

/-- The onMessage switch of the Play page (Play.tsx lines 67-154):
the new state and the messages sent back on the socket.  Message types
without a case fall through the switch and change nothing. -/
def onMessage (s : State) (msg : ServerMsg) : State × List ClientMsg :=
  match msg with
  | .playerState _ _ _ status game_type total_score rank comeback_credits
      current_streak streak_multiplier _ =>
      ({ s with
          gameType := game_type
          totalScore := total_score
          rank := rank
          comebackCredits := comeback_credits
          currentStreak := current_streak
          streakMultiplier := streak_multiplier
          isActive := status == "active"
          initialized := true }, [])
  | .sessionStarted game_type _ =>
      ({ s with gameType := some game_type, isActive := true }, [])
  | .sessionPaused => ({ s with isActive := false }, [])
  | .sessionResumed _ => ({ s with isActive := true }, [])
  | .sessionEnded final_leaderboard awards =>
      ({ s with navigatedToResults := some (final_leaderboard, awards) }, [])
  | .question q _ _ _ _ total_score =>
      ({ s with question := some q, totalScore := total_score }, [])
  | .answerCorrect m =>
      ({ s with
          answerResult := some (.correct m)
          totalScore := (m.total_score : Int)
          currentStreak := (m.current_streak : Int)
          streakMultiplier := m.streak_multiplier
          comebackCredits := (m.comeback_credits : Int) }, [])
  | .answerWrong correct_index =>
      ({ s with
          answerResult := some (.wrong correct_index)
          currentStreak := 0 }, [])
  | .leaderboardUpdate _ top_5 your_rank your_score _ =>
      ({ s with
          leaderboard := top_5.getD s.leaderboard
          rank := your_rank.getD s.rank
          totalScore := your_score.getD s.totalScore }, [])
  | .ping _ => (s, [.pong])
  | .error message => ({ s with error := some message }, [])
  | .hostState _ _ _ _ _ _ _ => (s, [])
  | .playerConnected _ _ _ _ => (s, [])
  | .playerDisconnected _ _ => (s, [])
  | .liveEvent _ _ => (s, [])
  | .playerScoreUpdate _ _ => (s, [])

end Play

namespace Monitor

/-- The React state of the teacher Monitor page (src/unnamed/part_014). -/
structure State where
  status : String
  gameType : Option GameType
  teacherMode : String
  players : List HostStatePlayer
  leaderboard : List LeaderboardEntry
  playerCount : Nat
  timerEnd : Option Int
  error : Option String
  initialized : Bool

/-- The onMessage switch of the Monitor page (part_014 lines 61-146):
the new state and the messages sent back on the socket.  Message types
without a case fall through the switch and change nothing. -/
def onMessage (s : State) (msg : ServerMsg) : State × List ClientMsg :=
  match msg with
  | .hostState status game_type teacher_mode players leaderboard player_count
      timer_end =>
      ({ s with
          status := status
          gameType := some game_type
          teacherMode := teacher_mode
          players := players
          leaderboard := leaderboard
          playerCount := player_count
          timerEnd := timer_end
          initialized := true }, [])
  | .playerConnected player_id display_name is_teacher player_count =>
      ({ s with
          players :=
            if s.players.any (fun p => p.player_id == player_id) then
              s.players.map (fun p =>
                if p.player_id == player_id then { p with connected := true } else p)
            else
              s.players ++ [{ player_id := player_id, display_name := display_name,
                              is_teacher := is_teacher, connected := true }]
          playerCount := player_count }, [])
  | .playerDisconnected player_id player_count =>
      ({ s with
          players := s.players.map (fun p =>
            if p.player_id == player_id then { p with connected := false } else p)
          playerCount := player_count }, [])
  | .sessionStarted game_type _ =>
      ({ s with status := "active", gameType := some game_type }, [])
  | .sessionPaused => ({ s with status := "paused" }, [])
  | .sessionResumed _ => ({ s with status := "active" }, [])
  | .sessionEnded final_leaderboard _ =>
      ({ s with status := "ended", leaderboard := final_leaderboard }, [])
  | .leaderboardUpdate leaderboard _ _ _ _ =>
      ({ s with leaderboard := leaderboard.getD s.leaderboard }, [])
  | .ping _ => (s, [.pong])
  | .error message => ({ s with error := some message }, [])
  | .playerState _ _ _ _ _ _ _ _ _ _ _ => (s, [])
  | .question _ _ _ _ _ _ => (s, [])
  | .answerCorrect _ => (s, [])
  | .answerWrong _ => (s, [])
  | .liveEvent _ _ => (s, [])
  | .playerScoreUpdate _ _ => (s, [])

end Monitor

/-! ## Reconnection logic of useWebSocket (C9)

src/unnamed/part_001 (the hook) and
packages/shared/src/constants/index.ts lines 21-22.  The hook keeps a
reconnectAttempts counter: ws.onopen resets it to 0; ws.onclose
schedules a setTimeout of reconnectInterval milliseconds when
reconnectAttempts < maxReconnectAttempts (defaults 3000 and 10, equal
to the shared constants); the timer callback increments the counter and
reconnects. -/

/-- Constant WS_MAX_RECONNECT_ATTEMPTS of
packages/shared/src/constants/index.ts line 21. -/
def WS_MAX_RECONNECT_ATTEMPTS : Nat := 10

/-- Constant WS_RECONNECT_INTERVAL_MS of
packages/shared/src/constants/index.ts line 22. -/
def WS_RECONNECT_INTERVAL_MS : Nat := 3000

/-- Default of the reconnectInterval option of useWebSocket (part_001
line 184). -/
def defaultReconnectInterval : Nat := 3000

/-- Default of the maxReconnectAttempts option of useWebSocket
(part_001 line 185). -/
def defaultMaxReconnectAttempts : Nat := 10

namespace Hook

/-- The reconnection-relevant state of useWebSocket: the
reconnectAttempts counter and whether a reconnect timer is pending. -/
structure State where
  attempts : Nat
  timerScheduled : Bool
deriving DecidableEq, Repr

/-- The events that drive the reconnection logic: the socket opening
(ws.onopen), the socket closing (ws.onclose), and a scheduled reconnect
timer firing. -/
inductive Event where
  | opened
  | closed
  | timerFired
deriving DecidableEq, Repr

/-- One step of the hook's reconnection logic at the default options
(reconnect = true, maxReconnectAttempts = 10): onopen resets the
counter (part_001 line 238); onclose schedules a reconnect only while
attempts < max (lines 276-283); a firing timer consumes its schedule
and increments the counter (lines 277-280). -/
def step (s : State) (e : Event) : State :=
  match e with
  | .opened => { s with attempts := 0 }
  | .closed =>
      if s.attempts < defaultMaxReconnectAttempts then
        { s with timerScheduled := true }
      else
        s
  | .timerFired =>
      if s.timerScheduled then
        { attempts := s.attempts + 1, timerScheduled := false }
      else
        s

/-- The hook state after a sequence of socket events, starting from a
fresh mount (zero attempts, no pending timer). -/
def run (events : List Event) : State :=
  events.foldl step { attempts := 0, timerScheduled := false }

end Hook

/-! ## Secure session store (src/unnamed/part_005)

Tokens live in a module-level memory variable; sessionStorage receives
only the non-sensitive metadata.  The browser sessionStorage is
modelled as a partial map from key to value, and the current time is an
explicit argument wherever the source calls Date.now(). -/

/-- Interface SecureSessionData of part_005 lines 20-24. -/
structure SecureSessionData where
  playerId : String
  playerName : String
  sessionCode : String
  playerToken : Option String
  clerkToken : Option String
  expiresAt : Option Int
deriving DecidableEq, Repr

/-- The module state of the secure session manager: the in-memory
session and the browser sessionStorage. -/
structure SessionStore where
  memorySession : Option SecureSessionData
  sessionStorage : String → Option String

/-- Constant SESSION_EXPIRY_MS of part_005 line 30 (4 hours). -/
def SESSION_EXPIRY_MS : Int := 4 * 60 * 60 * 1000

/-- Storage.setItem as a map update. -/
def setItem (storage : String → Option String) (key value : String) :
    String → Option String :=
  fun k => if k = key then some value else storage k

/-- storePlayerSession (part_005 lines 37-51): the full session with a
fresh expiry goes to memory; only player_id, player_name and
session_code go to sessionStorage. -/
def storePlayerSession (st : SessionStore) (now : Int)
    (session : SecureSessionData) : SessionStore :=
  { memorySession := some { session with expiresAt := some (now + SESSION_EXPIRY_MS) }
    sessionStorage :=
      setItem (setItem (setItem st.sessionStorage
        "player_id" session.playerId)
        "player_name" session.playerName)
        "session_code" session.sessionCode }

/-- storeClerkToken (part_005 lines 56-66): the token goes into the
memory session (created empty when absent) with a fresh expiry;
sessionStorage is untouched. -/
def storeClerkToken (st : SessionStore) (now : Int) (token : String) :
    SessionStore :=
  let base := st.memorySession.getD
    { playerId := "", playerName := "", sessionCode := ""
      playerToken := none, clerkToken := none, expiresAt := none }
  { st with
    memorySession := some { base with
      clerkToken := some token
      expiresAt := some (now + SESSION_EXPIRY_MS) } }

/-- The expiry test the getters perform (part_005 lines 75 and 89):
memorySession.expiresAt is truthy (present and nonzero) and Date.now()
exceeds it. -/
def sessionExpired (m : SecureSessionData) (now : Int) : Bool :=
  match m.expiresAt with
  | some e => e != 0 && now > e
  | none => false

/-- getClerkToken (part_005 lines 71-80). -/
def getClerkToken (st : SessionStore) (now : Int) : Option String :=
  match st.memorySession with
  | none => none
  | some m => if sessionExpired m now then none else m.clerkToken

/-- getPlayerToken (part_005 lines 85-94). -/
def getPlayerToken (st : SessionStore) (now : Int) : Option String :=
  match st.memorySession with
  | none => none
  | some m => if sessionExpired m now then none else m.playerToken

/-- refreshSessionExpiry (part_005 lines 138-142). -/
def refreshSessionExpiry (st : SessionStore) (now : Int) : SessionStore :=
  match st.memorySession with
  | none => st
  | some m =>
      { st with memorySession := some { m with expiresAt := some (now + SESSION_EXPIRY_MS) } }

/-- clearSession (part_005 lines 125-133): memory dropped; the three
metadata keys removed from sessionStorage. -/
def clearSession (st : SessionStore) : SessionStore :=
  { memorySession := none
    sessionStorage := fun k =>
      if k = "player_id" ∨ k = "player_name" ∨ k = "session_code" then none
      else st.sessionStorage k }

/-! ## Helper lemmas -/

/-- A fresh streak has multiplier one. -/
lemma multiplierFor_zero : multiplierFor 0 = 1 := by
  norm_num [multiplierFor, clamp]

/-- The multiplier formula only attains the five quarter steps. -/
lemma multiplierFor_mem (n : Nat) :
    multiplierFor n ∈ ([1, 5/4, 3/2, 7/4, 2] : List ℚ) := by
  unfold multiplierFor clamp
  by_cases h : n / 3 < 4
  · set k := n / 3 with hk
    interval_cases k <;> norm_num
  · push_neg at h
    have h4 : (4 : ℚ) ≤ ((n / 3 : Nat) : ℚ) := by exact_mod_cast h
    have h2 : (2 : ℚ) ≤ 1 + 1/4 * ((n / 3 : Nat) : ℚ) := by linarith
    rw [min_eq_right h2, max_eq_right (by norm_num : (1 : ℚ) ≤ 2)]
    simp

/-- Every scoring step keeps the multiplier equal to the formula
applied to the streak. -/
lemma stepEvent_mult (s : ScoringState) (e : SessionEvent)
    (h : s.streak_multiplier = multiplierFor s.current_streak) :
    (stepEvent s e).streak_multiplier = multiplierFor (stepEvent s e).current_streak := by
  cases e with
  | death run qid =>
    by_cases hp : (s.pending_question).isSome <;>
      simp [stepEvent, applyDeath, hp, h]
  | answer qid ai ci t =>
    simp only [stepEvent, sessionAnswer]
    by_cases hv : s.pending_question = some qid ∧ t ≤ ANSWER_TIMEOUT_MS
    · rw [if_pos hv]
      by_cases hc : ai = ci
      · rw [if_pos hc]
        simp [applyCorrect]
      · rw [if_neg hc]
        simp [applyWrong, multiplierFor_zero]
    · rw [if_neg hv]
      exact h

/-- The multiplier invariant carries over any event fold. -/
lemma foldl_mult (evs : List SessionEvent) (s : ScoringState)
    (h : s.streak_multiplier = multiplierFor s.current_streak) :
    (evs.foldl stepEvent s).streak_multiplier =
      multiplierFor (evs.foldl stepEvent s).current_streak := by
  induction evs generalizing s with
  | nil => exact h
  | cons e evs ih => exact ih _ (stepEvent_mult s e h)

/-- In every reachable state the multiplier equals the formula. -/
lemma runTrace_mult (evs : List SessionEvent) :
    (runTrace evs).streak_multiplier = multiplierFor (runTrace evs).current_streak :=
  foldl_mult evs initialScoring (by simp [initialScoring, multiplierFor_zero])

/-- Dropping a prefix never lengthens a list. -/
lemma length_dropWhile_le (p : Nat → Bool) (l : List Nat) :
    (List.dropWhile p l).length ≤ l.length := by
  induction l with
  | nil => simp
  | cons a l ih =>
    by_cases h : p a
    · rw [List.dropWhile_cons_of_pos h]
      exact le_trans ih (by simp)
    · rw [List.dropWhile_cons_of_neg h]

/-- Trimming never lengthens a string. -/
lemma jsTrim_length_le (s : JStr) : jsLength (jsTrim s) ≤ jsLength s := by
  unfold jsTrim jsLength
  calc (List.reverse (List.dropWhile isJsWhitespace
          (List.reverse (List.dropWhile isJsWhitespace s)))).length
      = (List.dropWhile isJsWhitespace
          (List.reverse (List.dropWhile isJsWhitespace s))).length := by
        rw [List.length_reverse]
    _ ≤ (List.reverse (List.dropWhile isJsWhitespace s)).length :=
        length_dropWhile_le _ _
    _ = (List.dropWhile isJsWhitespace s).length := List.length_reverse _
    _ ≤ s.length := length_dropWhile_le _ _

/-- A string has at least as many UTF-16 units as code points. -/
lemma codePointCount_le (s : JStr) : codePointCount s ≤ jsLength s :=
  List.length_filter_le _ s

/-- The hook's reconnect step keeps the attempt counter within the
maximum, and a pending timer implies room for one more attempt. -/
lemma hook_step_inv (s : Hook.State) (e : Hook.Event)
    (h1 : s.attempts ≤ defaultMaxReconnectAttempts)
    (h2 : s.timerScheduled = true → s.attempts < defaultMaxReconnectAttempts) :
    (Hook.step s e).attempts ≤ defaultMaxReconnectAttempts ∧
      ((Hook.step s e).timerScheduled = true →
        (Hook.step s e).attempts < defaultMaxReconnectAttempts) := by
  cases e with
  | opened =>
    refine ⟨Nat.zero_le _, fun _ => ?_⟩
    norm_num [Hook.step, defaultMaxReconnectAttempts]
  | closed =>
    by_cases h : s.attempts < defaultMaxReconnectAttempts
    · simp only [Hook.step, if_pos h]
      exact ⟨h1, fun _ => h⟩
    · simp only [Hook.step, if_neg h]
      exact ⟨h1, h2⟩
  | timerFired =>
    by_cases h : s.timerScheduled = true
    · simp only [Hook.step, if_pos h]
      exact ⟨h2 h, fun hf => by simp at hf⟩
    · simp only [Hook.step, if_neg h]
      exact ⟨h1, h2⟩

/-- The attempt bound carries over any event fold. -/
lemma hook_foldl_inv (evs : List Hook.Event) (s : Hook.State)
    (h1 : s.attempts ≤ defaultMaxReconnectAttempts)
    (h2 : s.timerScheduled = true → s.attempts < defaultMaxReconnectAttempts) :
    (evs.foldl Hook.step s).attempts ≤ defaultMaxReconnectAttempts := by
  induction evs generalizing s with
  | nil => exact h1
  | cons e evs ih =>
    exact ih _ (hook_step_inv s e h1 h2).1 (hook_step_inv s e h1 h2).2

/-- A nonnegative store time gives a nonzero (hence truthy) expiry. -/
lemma expiry_ne_zero (now0 : Int) (h0 : 0 ≤ now0) :
    now0 + SESSION_EXPIRY_MS ≠ 0 := by
  simp only [SESSION_EXPIRY_MS]
  omega

/-- Both token getters return none from a store whose memory session
carries a nonzero expiry in the past. -/
lemma getters_none_of_expired (st1 : SessionStore) (later e : Int)
    (m : SecureSessionData) (hm : st1.memorySession = some m)
    (he : m.expiresAt = some e) (hnz : e ≠ 0) (hlt : e < later) :
    getPlayerToken st1 later = none ∧ getClerkToken st1 later = none := by
  have hx : sessionExpired m later = true := by
    simp [sessionExpired, he, hnz, hlt]
  constructor <;> simp [getPlayerToken, getClerkToken, hm, hx]

/-! ## Claims -/

/-- C1: the claim states that the answer message a player sends carries
exactly type, question_id, answer_index and time_ms and never the
correct index.  The code violates its own declared shape: evaluated at
the failing input (GameContainer.handleAnswer forwarding question q1,
chosen index 2, 3400 elapsed ms to the Play page handler), the sent
object carries a fifth field correct_index — bound, through the arity
mismatch between GameContainer's three-argument onAnswer prop and the
four-parameter Play handler, to the elapsed time — while time_ms is
undefined; the field list differs from the source interface
WSClientAnswer.  The rest of the claim holds: the question payload has
no correct_index field, and among the server replies only answer_wrong
carries one. -/
theorem c1_answer_message_carries_correct_index :
    (GameContainer.answerSend "q1" 2 3400).map Prod.fst =
      ["type", "question_id", "answer_index", "correct_index", "time_ms"] ∧
    (GameContainer.answerSend "q1" 2 3400).map Prod.fst ≠ wsClientAnswerFields ∧
    jsGetProp (.obj (GameContainer.answerSend "q1" 2 3400)) "correct_index" =
      .num 3400 ∧
    jsGetProp (.obj (GameContainer.answerSend "q1" 2 3400)) "time_ms" = .undefined ∧
    "correct_index" ∉ questionFields ∧
    "correct_index" ∈ wsAnswerWrongFields :=
  ⟨rfl, by decide, rfl, rfl, by decide, by decide⟩

/-- C2: for an accepted correct answer (the question matches the one
pending from the preceding death and the answer is within the 120 s
window), current_streak grows by exactly one, comeback_credits becomes
min(5, comeback_credits + 1), the reply's bonus_earned equals the
last_death_score recorded at the preceding death, total_score grows by
exactly bonus_earned (the death itself credited nothing), and the
pending question is cleared. -/
theorem c2_correct_answer_effects (s0 : ScoringState) (rs : Nat) (qid : String)
    (ai ci t : Nat) (hp : s0.pending_question = none)
    (ht : t ≤ ANSWER_TIMEOUT_MS) (hc : ai = ci) :
    (stepEvent s0 (.death rs qid)).total_score = s0.total_score ∧
    (sessionAnswer (stepEvent s0 (.death rs qid)) qid ai ci t).1.current_streak =
      (stepEvent s0 (.death rs qid)).current_streak + 1 ∧
    (sessionAnswer (stepEvent s0 (.death rs qid)) qid ai ci t).1.comeback_credits =
      min 5 ((stepEvent s0 (.death rs qid)).comeback_credits + 1) ∧
    (∃ m, (sessionAnswer (stepEvent s0 (.death rs qid)) qid ai ci t).2 =
        AnswerReply.correct m ∧
      m.bonus_earned = (stepEvent s0 (.death rs qid)).last_death_score ∧
      (sessionAnswer (stepEvent s0 (.death rs qid)) qid ai ci t).1.total_score =
        (stepEvent s0 (.death rs qid)).total_score + m.bonus_earned) ∧
    (sessionAnswer (stepEvent s0 (.death rs qid)) qid ai ci t).1.pending_question =
      none := by
  subst hc
  have hstep : stepEvent s0 (SessionEvent.death rs qid) = applyDeath s0 rs qid := by
    simp [stepEvent, hp]
  rw [hstep]
  have hcond : (applyDeath s0 rs qid).pending_question = some qid ∧
      t ≤ ANSWER_TIMEOUT_MS := ⟨rfl, ht⟩
  unfold sessionAnswer
  rw [if_pos hcond, if_pos rfl]
  exact ⟨rfl, rfl, rfl,
    ⟨(applyCorrect (applyDeath s0 rs qid)).2, rfl, rfl, rfl⟩, rfl⟩

/-- Witness for C2 at the literal scenario S2 of the specification: a
fresh player dies with run score 100 and answers q1 correctly after
3400 ms. -/
theorem c2_correct_answer_effects_witness :
    (stepEvent initialScoring (.death 100 "q1")).total_score =
      initialScoring.total_score ∧
    (sessionAnswer (stepEvent initialScoring (.death 100 "q1")) "q1" 2 2 3400).1.current_streak =
      (stepEvent initialScoring (.death 100 "q1")).current_streak + 1 ∧
    (sessionAnswer (stepEvent initialScoring (.death 100 "q1")) "q1" 2 2 3400).1.comeback_credits =
      min 5 ((stepEvent initialScoring (.death 100 "q1")).comeback_credits + 1) ∧
    (∃ m, (sessionAnswer (stepEvent initialScoring (.death 100 "q1")) "q1" 2 2 3400).2 =
        AnswerReply.correct m ∧
      m.bonus_earned = (stepEvent initialScoring (.death 100 "q1")).last_death_score ∧
      (sessionAnswer (stepEvent initialScoring (.death 100 "q1")) "q1" 2 2 3400).1.total_score =
        (stepEvent initialScoring (.death 100 "q1")).total_score + m.bonus_earned) ∧
    (sessionAnswer (stepEvent initialScoring (.death 100 "q1")) "q1" 2 2 3400).1.pending_question =
      none :=
  c2_correct_answer_effects initialScoring 100 "q1" 2 2 3400 rfl (by norm_num [ANSWER_TIMEOUT_MS]) rfl

/-- C3: in every reachable scoring state the multiplier equals
clamp(1.0 + 0.25 * floor(current_streak / 3), 1.0, 2.0) and therefore
lies in the set of five quarter steps. -/
theorem c3_streak_multiplier_invariant (evs : List SessionEvent) :
    (runTrace evs).streak_multiplier =
      clamp (1 + (1/4 : ℚ) * (((runTrace evs).current_streak / 3 : Nat) : ℚ)) 1 2 ∧
    (runTrace evs).streak_multiplier ∈ ([1, 5/4, 3/2, 7/4, 2] : List ℚ) := by
  constructor
  · rw [runTrace_mult]; rfl
  · rw [runTrace_mult]; exact multiplierFor_mem _

/-- C4: on answer_correct the GameContainer resumes the engine with the
comeback_start_score carried in the message; DinoDashEngine.resume
rebuilds the whole run state from scratch with the run score (and the
distance it is derived from) starting at that value; and, per the
specification's scoring engine, the comeback start recorded at a death
is 0 when no comeback credit was held and floor(last_death_score * 0.5)
otherwise. -/
theorem c4_respawn_with_comeback_score (g : DinoDash.EngineState) (sq : Bool)
    (m : AnswerCorrectMsg) (s0 : ScoringState) (rs : Nat) (qid : String) :
    (GameContainer.onAnswerResult g sq (.correct m)).1 =
      DinoDash.resume g m.comeback_start_score ∧
    (GameContainer.onAnswerResult g sq (.correct m)).2 = false ∧
    DinoDash.resume g m.comeback_start_score =
      { dinoY := 0, dinoVelocity := 0, isDucking := false, isJumping := false,
        speed := DinoDash.INITIAL_SPEED, obstacles := [],
        score := m.comeback_start_score,
        distance := (m.comeback_start_score : ℚ),
        running := true, paused := false, gameOver := false, frameCount := 0,
        nextObstacleDistance := 300 } ∧
    (applyDeath s0 rs qid).comeback_start_score =
      (if s0.comeback_credits = 0 then 0
       else (applyDeath s0 rs qid).last_death_score / 2) := by
  refine ⟨rfl, rfl, rfl, ?_⟩
  by_cases h : s0.comeback_credits = 0
  · simp [applyDeath, h]
  · simp [applyDeath, h, Nat.pos_of_ne_zero h]

/-- C5, counterexample: the frame whose JSON body is an object with the
unrecognized tag bogus is delivered to the registered callback, so the
claimed only-recognized-tags delivery condition is false on the code. -/
theorem c5_counterexample_unknown_tag_delivered :
    wsDeliver (some (.obj [("type", .str "bogus")])) = true ∧
    claimedDeliver (some (.obj [("type", .str "bogus")])) = false ∧
    serverToClientTags.contains "bogus" = false :=
  ⟨rfl, by decide, by decide⟩

/-- C5, amended: an inbound frame is delivered to the registered
callback if and only if it parses as a non-null JSON object whose type
property is a string; the hook applies no recognized-tag filter, so
frames with an unrecognized type are delivered too (and fall through
the consumer's switch). -/
theorem c5_amended_delivery_condition (d : Option JsVal) :
    wsDeliver d = amendedDeliver d := by
  cases d with
  | none => rfl
  | some v =>
    cases v with
    | obj fields =>
      cases h : jsIsStringVal (jsGetProp (.obj fields) "type") <;>
        simp [wsDeliver, amendedDeliver, jsTypeofIsObject, jsIsNull, h]
    | undefined => rfl
    | nul => rfl
    | bool b => rfl
    | num n => rfl
    | str s => rfl
    | arr elems => rfl

/-- C6, counterexample: the four-character code ABCD (submitted with
name Ada) passes the code validation and the join request is sent, yet
the claimed acceptance condition — exactly six characters from the
legible set — rejects it. -/
theorem c6_counterexample_four_char_code_submitted :
    Join.handleSubmit [0x41, 0x42, 0x43, 0x44] [0x41, 0x64, 0x61] =
      Join.SubmitOutcome.joinRequest [0x41, 0x42, 0x43, 0x44] [0x41, 0x64, 0x61] ∧
    claimedCodeOk [0x41, 0x42, 0x43, 0x44] = false ∧
    Join.handleSubmit [0x41, 0x49, 0x4F, 0x30, 0x31, 0x42] [0x41, 0x64, 0x61] =
      Join.SubmitOutcome.joinRequest [0x41, 0x49, 0x4F, 0x30, 0x31, 0x42]
        [0x41, 0x64, 0x61] ∧
    claimedCodeOk [0x41, 0x49, 0x4F, 0x30, 0x31, 0x42] = false :=
  ⟨by decide, by decide, by decide, by decide⟩

/-- C6, amended: the join form submits a join request exactly for codes
that, after uppercasing, match the anchored pattern of four to six
characters from A-Z and 0-9 (the input already strips anything else and
caps entry at six); any other code is rejected with the code validation
error before any request is sent.  The characters I, O, 0 and 1 are not
excluded and four- and five-character codes are accepted. -/
theorem c6_amended_code_validation (code name : JStr) :
    (∀ c n, Join.handleSubmit code name = .joinRequest c n →
      codeRegexTest (jsToUpperCase code) = true ∧ c = jsToUpperCase code) ∧
    (codeRegexTest (jsToUpperCase code) = false →
      Join.handleSubmit code name = .validationError Join.codeErrorMessage) := by
  constructor
  · intro c n h
    unfold Join.handleSubmit at h
    by_cases h1 : code = [] ∨ codeRegexTest (jsToUpperCase code) = false
    · rw [if_pos h1] at h
      exact absurd h (by simp)
    · rw [if_neg h1] at h
      by_cases h2 : name = [] ∨ jsLength (jsTrim name) < 2
      · rw [if_pos h2] at h
        exact absurd h (by simp)
      · rw [if_neg h2] at h
        push_neg at h1
        injection h with hA hB
        exact ⟨Bool.not_eq_false _ ▸ h1.2, hA.symm⟩
  · intro hf
    unfold Join.handleSubmit
    rw [if_pos (Or.inr hf)]

/-- Witness for C6's amended theorem: the lowercase code ab12 submits
(uppercased to AB12), and the one-letter code A is rejected with the
code validation error. -/
theorem c6_amended_code_validation_witness :
    (codeRegexTest (jsToUpperCase [0x61, 0x62, 0x31, 0x32]) = true ∧
      [0x41, 0x42, 0x31, 0x32] = jsToUpperCase [0x61, 0x62, 0x31, 0x32]) ∧
    Join.handleSubmit [0x41] [0x41, 0x64, 0x61] =
      Join.SubmitOutcome.validationError Join.codeErrorMessage :=
  ⟨(c6_amended_code_validation [0x61, 0x62, 0x31, 0x32] [0x41, 0x64, 0x61]).1
      [0x41, 0x42, 0x31, 0x32] [0x41, 0x64, 0x61] (by decide),
   (c6_amended_code_validation [0x41] [0x41, 0x64, 0x61]).2 (by decide)⟩

/-- C7, counterexample: with the valid code ABC123, the name consisting
of the single astral character U+1F3AE (the surrogate pair D83C DFAE,
JavaScript length 2) passes the trimmed-length-at-least-2 check and the
join request is sent, although the submitted name is one Unicode code
point — below the claimed two-code-point minimum. -/
theorem c7_counterexample_one_code_point_name_submitted :
    Join.handleSubmit [0x41, 0x42, 0x43, 0x31, 0x32, 0x33] [0xD83C, 0xDFAE] =
      Join.SubmitOutcome.joinRequest [0x41, 0x42, 0x43, 0x31, 0x32, 0x33]
        [0xD83C, 0xDFAE] ∧
    codePointCount (jsTrim [0xD83C, 0xDFAE]) = 1 ∧
    jsLength (jsTrim [0xD83C, 0xDFAE]) = 2 :=
  ⟨by decide, by decide, by decide⟩

/-- C7, amended: the bounds are UTF-16 code units, not code points.
Given the input's 50-unit cap, a submitted name is the trimmed entry
with between 2 and 50 UTF-16 units (hence at most 50 code points, but
possibly as few as one); names empty or below two units after trimming
are rejected with the name validation error when the code is valid. -/
theorem c7_amended_name_validation (code name : JStr)
    (hlen : jsLength name ≤ 50) :
    (∀ c n, Join.handleSubmit code name = .joinRequest c n →
      n = jsTrim name ∧ 2 ≤ jsLength n ∧ jsLength n ≤ 50 ∧
      codePointCount n ≤ 50) ∧
    (codeRegexTest (jsToUpperCase code) = true → code ≠ [] →
      (name = [] ∨ jsLength (jsTrim name) < 2) →
      Join.handleSubmit code name = .validationError Join.nameErrorMessage) := by
  constructor
  · intro c n h
    unfold Join.handleSubmit at h
    by_cases h1 : code = [] ∨ codeRegexTest (jsToUpperCase code) = false
    · rw [if_pos h1] at h
      exact absurd h (by simp)
    · rw [if_neg h1] at h
      by_cases h2 : name = [] ∨ jsLength (jsTrim name) < 2
      · rw [if_pos h2] at h
        exact absurd h (by simp)
      · rw [if_neg h2] at h
        push_neg at h2
        injection h with hA hB
        have htrim : 2 ≤ jsLength (jsTrim name) := h2.2
        have hle : jsLength (jsTrim name) ≤ 50 :=
          le_trans (jsTrim_length_le name) hlen
        exact ⟨hB.symm, hB ▸ htrim, hB ▸ hle,
          hB ▸ le_trans (codePointCount_le _) hle⟩
  · intro hcode hne hbad
    unfold Join.handleSubmit
    rw [if_neg, if_pos]
    · cases hbad with
      | inl h => exact Or.inl h
      | inr h => exact Or.inr h
    · push_neg
      exact ⟨hne, by simp [hcode]⟩

/-- Witness for C7's amended theorem: the name space-J-o (three units)
submits as the trimmed Jo, and the one-letter name A is rejected with
the name validation error. -/
theorem c7_amended_name_validation_witness :
    ([0x4A, 0x6F] = jsTrim [0x20, 0x4A, 0x6F] ∧
      2 ≤ jsLength [0x4A, 0x6F] ∧ jsLength [0x4A, 0x6F] ≤ 50 ∧
      codePointCount [0x4A, 0x6F] ≤ 50) ∧
    Join.handleSubmit [0x41, 0x42, 0x43, 0x31, 0x32, 0x33] [0x41] =
      Join.SubmitOutcome.validationError Join.nameErrorMessage :=
  ⟨(c7_amended_name_validation [0x41, 0x42, 0x43, 0x31, 0x32, 0x33]
      [0x20, 0x4A, 0x6F] (by decide)).1
      [0x41, 0x42, 0x43, 0x31, 0x32, 0x33] [0x4A, 0x6F] (by decide),
   (c7_amended_name_validation [0x41, 0x42, 0x43, 0x31, 0x32, 0x33]
      [0x41] (by decide)).2 (by decide) (by decide) (Or.inr (by decide))⟩

/-- C8: on a ping message, both the player's Play page and the host's
Monitor page reply with exactly one pong on the same connection and
leave every piece of their state unchanged. -/
theorem c8_ping_replies_pong (s : Play.State) (ms : Monitor.State) (t u : Int) :
    Play.onMessage s (.ping t) = (s, [ClientMsg.pong]) ∧
    Monitor.onMessage ms (.ping u) = (ms, [ClientMsg.pong]) :=
  ⟨rfl, rfl⟩

/-- C9: under the default options (interval 3000 ms, limit 10, both
equal to the shared constants), the useWebSocket reconnect counter
never exceeds 10 along any sequence of open, close and timer events
from a fresh mount; once 10 attempts have been used, a close schedules
nothing more; and a successful open resets the counter to 0. -/
theorem c9_reconnect_attempts_bounded :
    (∀ evs : List Hook.Event,
      (Hook.run evs).attempts ≤ defaultMaxReconnectAttempts) ∧
    (∀ s : Hook.State, defaultMaxReconnectAttempts ≤ s.attempts →
      Hook.step s .closed = s) ∧
    (∀ s : Hook.State, (Hook.step s .opened).attempts = 0) ∧
    defaultMaxReconnectAttempts = WS_MAX_RECONNECT_ATTEMPTS ∧
    defaultMaxReconnectAttempts = 10 ∧
    defaultReconnectInterval = WS_RECONNECT_INTERVAL_MS ∧
    defaultReconnectInterval = 3000 := by
  refine ⟨?_, ?_, fun s => rfl, rfl, rfl, rfl, rfl⟩
  · intro evs
    exact hook_foldl_inv evs _ (Nat.zero_le _) (fun h => by simp at h)
  · intro s h
    simp only [Hook.step, if_neg (not_lt.mpr h)]

/-- Witness for C9: three events of an outage stay within the bound,
the saturated counter ignores a close, and an open resets a counter
of 7. -/
theorem c9_reconnect_attempts_bounded_witness :
    (Hook.run [.closed, .timerFired, .closed]).attempts ≤
      defaultMaxReconnectAttempts ∧
    Hook.step { attempts := 10, timerScheduled := false } .closed =
      { attempts := 10, timerScheduled := false } ∧
    (Hook.step { attempts := 7, timerScheduled := false } .opened).attempts = 0 :=
  ⟨c9_reconnect_attempts_bounded.1 [.closed, .timerFired, .closed],
   c9_reconnect_attempts_bounded.2.1 { attempts := 10, timerScheduled := false }
     (by norm_num [defaultMaxReconnectAttempts]),
   c9_reconnect_attempts_bounded.2.2.1 { attempts := 7, timerScheduled := false }⟩

/-- C10: the secure session store persists exactly player_id,
player_name and session_code to sessionStorage — a token value can
appear there only if it already did or coincides with one of the three
metadata strings — and storeClerkToken and refreshSessionExpiry never
touch sessionStorage; after tokens were stored or refreshed at a
nonnegative time, both getPlayerToken and getClerkToken return none
once more than SESSION_EXPIRY_MS (4 hours) have elapsed. -/
theorem c10_secure_session_store (st : SessionStore) (now now0 later : Int)
    (sess : SecureSessionData) (tok token : String) :
    (storePlayerSession st now sess).sessionStorage "player_id" =
      some sess.playerId ∧
    (storePlayerSession st now sess).sessionStorage "player_name" =
      some sess.playerName ∧
    (storePlayerSession st now sess).sessionStorage "session_code" =
      some sess.sessionCode ∧
    (∀ k, k ≠ "player_id" → k ≠ "player_name" → k ≠ "session_code" →
      (storePlayerSession st now sess).sessionStorage k = st.sessionStorage k) ∧
    (∀ k, (storePlayerSession st now sess).sessionStorage k = some tok →
      st.sessionStorage k = some tok ∨ tok = sess.playerId ∨
      tok = sess.playerName ∨ tok = sess.sessionCode) ∧
    (storeClerkToken st now token).sessionStorage = st.sessionStorage ∧
    (refreshSessionExpiry st now).sessionStorage = st.sessionStorage ∧
    (0 ≤ now0 → now0 + SESSION_EXPIRY_MS < later →
      getPlayerToken (storePlayerSession st now0 sess) later = none ∧
      getClerkToken (storePlayerSession st now0 sess) later = none) ∧
    (0 ≤ now0 → now0 + SESSION_EXPIRY_MS < later →
      getPlayerToken (storeClerkToken st now0 token) later = none ∧
      getClerkToken (storeClerkToken st now0 token) later = none) ∧
    (0 ≤ now0 → now0 + SESSION_EXPIRY_MS < later →
      getPlayerToken (refreshSessionExpiry st now0) later = none ∧
      getClerkToken (refreshSessionExpiry st now0) later = none) := by
  refine ⟨rfl, ?_, ?_, ?_, ?_, rfl, ?_, ?_, ?_, ?_⟩
  · simp [storePlayerSession, setItem]
  · simp [storePlayerSession, setItem]
  · intro k h1 h2 h3
    simp [storePlayerSession, setItem, h1, h2, h3]
  · intro k hk
    by_cases e3 : k = "session_code"
    · subst e3
      simp [storePlayerSession, setItem] at hk
      exact Or.inr (Or.inr (Or.inr hk.symm))
    · by_cases e2 : k = "player_name"
      · subst e2
        simp [storePlayerSession, setItem] at hk
        exact Or.inr (Or.inr (Or.inl hk.symm))
      · by_cases e1 : k = "player_id"
        · subst e1
          simp [storePlayerSession, setItem, e2, e3] at hk
          exact Or.inr (Or.inl hk.symm)
        · simp [storePlayerSession, setItem, e1, e2, e3] at hk
          exact Or.inl hk
  · cases hm : st.memorySession <;> simp [refreshSessionExpiry, hm]
  · intro h0 hlt
    exact getters_none_of_expired _ later (now0 + SESSION_EXPIRY_MS) _ rfl rfl
      (expiry_ne_zero now0 h0) hlt
  · intro h0 hlt
    exact getters_none_of_expired _ later (now0 + SESSION_EXPIRY_MS) _ rfl rfl
      (expiry_ne_zero now0 h0) hlt
  · intro h0 hlt
    cases hm : st.memorySession with
    | none =>
      constructor <;>
        simp [getPlayerToken, getClerkToken, refreshSessionExpiry, hm]
    | some m =>
      have hmem : (refreshSessionExpiry st now0).memorySession =
          some { m with expiresAt := some (now0 + SESSION_EXPIRY_MS) } := by
        simp [refreshSessionExpiry, hm]
      exact getters_none_of_expired _ later (now0 + SESSION_EXPIRY_MS) _ hmem rfl
        (expiry_ne_zero now0 h0) hlt

/-- Witness for C10 at a concrete run: a fresh store, a session stored
at time 0 with player token tok, read back 4 hours and 1 ms later. -/
theorem c10_secure_session_store_witness :
    (storePlayerSession { memorySession := none, sessionStorage := fun _ => none } 0
        { playerId := "p1", playerName := "Ada", sessionCode := "ABC123",
          playerToken := some "tok", clerkToken := none,
          expiresAt := none }).sessionStorage "x" =
      ({ memorySession := none, sessionStorage := fun _ => none } :
        SessionStore).sessionStorage "x" ∧
    (({ memorySession := none, sessionStorage := fun _ => none } :
        SessionStore).sessionStorage "player_id" = some "p1" ∨
      "p1" = ("p1" : String) ∨ "p1" = ("Ada" : String) ∨
      "p1" = ("ABC123" : String)) ∧
    (getPlayerToken (storePlayerSession
        { memorySession := none, sessionStorage := fun _ => none } 0
        { playerId := "p1", playerName := "Ada", sessionCode := "ABC123",
          playerToken := some "tok", clerkToken := none,
          expiresAt := none }) 14400001 = none ∧
      getClerkToken (storePlayerSession
        { memorySession := none, sessionStorage := fun _ => none } 0
        { playerId := "p1", playerName := "Ada", sessionCode := "ABC123",
          playerToken := some "tok", clerkToken := none,
          expiresAt := none }) 14400001 = none) ∧
    (getPlayerToken (storeClerkToken
        { memorySession := none, sessionStorage := fun _ => none } 0 "ctok")
        14400001 = none ∧
      getClerkToken (storeClerkToken
        { memorySession := none, sessionStorage := fun _ => none } 0 "ctok")
        14400001 = none) := by
  obtain ⟨h1, h2, h3, h4, h5, h6, h7, h8, h9, h10⟩ :=
    c10_secure_session_store
      { memorySession := none, sessionStorage := fun _ => none } 0 0 14400001
      { playerId := "p1", playerName := "Ada", sessionCode := "ABC123",
        playerToken := some "tok", clerkToken := none, expiresAt := none }
      "p1" "ctok"
  refine ⟨h4 "x" (by decide) (by decide) (by decide),
    h5 "player_id" (by decide),
    h8 (by norm_num) (by norm_num [SESSION_EXPIRY_MS]),
    h9 (by norm_num) (by norm_num [SESSION_EXPIRY_MS])⟩

end ReviewArcade
